import Mathlib

/-!
Shallow embedding of the sitemap-parser library
(`src/sitemap_parser/__init__.py`) and proofs about it.

Modelling conventions:
* XML elements are a tree of local tag name, optional text content and a
  list of child elements (lxml child iteration and `findall("./*")` both
  walk the immediate children, and `xpath("local-name()")` reads the tag
  name with the namespace stripped).
* Python exceptions become an `Except PyError` result; the three exception
  classes the library raises (`ValueError`, `TypeError` from keyword
  argument binding, `KeyError`) become constructors of `PyError`.
* Python floats are modelled as rationals; `float(str)` is modelled by
  `pyFloat`, a parser for finite decimal literals with an optional
  exponent.  IEEE special values (`inf`, `nan`) are outside the model.
* `dateutil.parser.isoparse` is an external library; developments are
  parameterised by a function `iso : String → Option String` returning the
  parsed datetime (abstractly, as an opaque token) or `none` when parsing
  fails (a `ValueError` in Python).
-/

/-- A Python exception value: the class together with its message. -/
inductive PyError where
  | valueError (msg : String)
  | typeError (msg : String)
  | keyError (msg : String)
deriving DecidableEq, Repr

/-- An XML element: local tag name (namespace stripped), optional text
content, and the list of immediate child elements. -/
inductive Element where
  | mk (localName : String) (text : Option String) (children : List Element)

/-- Local tag name of an element, as returned by `xpath("local-name()")`. -/
def Element.localName : Element → String
  | .mk n _ _ => n

/-- Text content of an element (`ele.text`), `none` when absent. -/
def Element.text : Element → Option String
  | .mk _ t _ => t

/-- Immediate children of an element, in document order. -/
def Element.children : Element → List Element
  | .mk _ _ c => c

/-- Python `str()` applied to a `str | None` value: `None` stringifies to
the literal string `"None"`.  Models the coercion at the top of the
`BaseData.loc` setter. -/
def pyStr : Option String → String
  | Option.some s => s
  | Option.none => "None"

/-- Whether the second character list is a leading segment of the first. -/
def startsWithChars : List Char → List Char → Bool
  | _, [] => true
  | [], _ :: _ => false
  | c :: cs, d :: ds => c == d && startsWithChars cs ds

/-- `re.match(r"http[s]?://", value)` as a Boolean: the string starts with
`http://` or `https://` (`re.match` anchors at the start only). -/
def locRegexMatch (s : String) : Bool :=
  startsWithChars s.data "http://".data || startsWithChars s.data "https://".data

/-- The `BaseData.loc` setter: stringify the value, then require the URL
shape, raising `ValueError` otherwise. -/
def setLoc (value : Option String) : Except PyError String :=
  match locRegexMatch (pyStr value) with
  | true => Except.ok (pyStr value)
  | false => Except.error (PyError.valueError (pyStr value ++ " is not a valid URL"))

/-- The `BaseData.lastmod` setter: `parser.isoparse(value)` when the value
is not `None`; a string `iso` cannot parse raises `ValueError`. -/
def setLastmod (iso : String → Option String) (value : Option String) :
    Except PyError (Option String) :=
  match value with
  | Option.none => Except.ok Option.none
  | Option.some s =>
    match iso s with
    | Option.some d => Except.ok (Option.some d)
    | Option.none => Except.error (PyError.valueError ("Invalid isoformat string: " ++ s))

/-- `Url.valid_freqs`. -/
def validFreqs : List String :=
  ["always", "hourly", "daily", "weekly", "monthly", "yearly", "never"]

/-- The `Url.changefreq` setter: a non-`None` value outside
`Url.valid_freqs` raises `ValueError`. -/
def setChangefreq (frequency : Option String) : Except PyError (Option String) :=
  match frequency with
  | Option.none => Except.ok Option.none
  | Option.some f =>
    match validFreqs.contains f with
    | true => Except.ok (Option.some f)
    | false => Except.error (PyError.valueError ("'" ++ f ++ "' is not an allowed value"))

/-- Digits to the natural number they denote in base 10. -/
def digitsToNat (ds : List Char) : Nat :=
  ds.foldl (fun n c => 10 * n + (c.toNat - 48)) 0

/-- Exponent suffix of a float literal: optional sign then at least one
digit, consuming the whole remainder.  The mantissa is an integer scaled
down by `10 ^ fracLen`; the suffix scales it by `10 ^ ±e`. -/
def pyFloatWithExp (mant : Int) (fracLen : Nat) (t : List Char) : Option ℚ :=
  let esigned : Bool × List Char :=
    match t with
    | '-' :: u => (true, u)
    | '+' :: u => (false, u)
    | _ => (false, t)
  let ed := (esigned.2.span Char.isDigit).1
  let leftover := (esigned.2.span Char.isDigit).2
  if ed.isEmpty || !leftover.isEmpty then Option.none
  else
    let e := digitsToNat ed
    if esigned.1 then Option.some (mkRat mant (10 ^ (fracLen + e)))
    else Option.some (mkRat (mant * (10 : Int) ^ e) (10 ^ fracLen))

/-- Core of `float(str)` on an already-trimmed character list: optional
sign, decimal digits with an optional point, optional exponent part.
Finite decimal literals only (no `inf`/`nan`/underscores). -/
def pyFloatCore (cs : List Char) : Option ℚ :=
  let signed : Bool × List Char :=
    match cs with
    | '-' :: t => (true, t)
    | '+' :: t => (false, t)
    | _ => (false, cs)
  let neg := signed.1
  let ip := (signed.2.span Char.isDigit).1
  let afterInt := (signed.2.span Char.isDigit).2
  let fracSplit : List Char × List Char :=
    match afterInt with
    | '.' :: t => t.span Char.isDigit
    | _ => ([], afterInt)
  let fp := fracSplit.1
  let rest : List Char :=
    match afterInt with
    | '.' :: _ => fracSplit.2
    | _ => afterInt
  if ip.isEmpty && fp.isEmpty then Option.none
  else
    let mantNat : Nat := digitsToNat ip * 10 ^ fp.length + digitsToNat fp
    let mant : Int := if neg then -(mantNat : Int) else (mantNat : Int)
    match rest with
    | [] => Option.some (mkRat mant (10 ^ fp.length))
    | 'e' :: t => pyFloatWithExp mant fp.length t
    | 'E' :: t => pyFloatWithExp mant fp.length t
    | _ => Option.none

/-- Python whitespace recognised by `float(str)` stripping. -/
def isPySpace (c : Char) : Bool :=
  c == ' ' || c == '\t' || c == '\n' || c == '\r' || c == '\x0b' || c == '\x0c'

/-- Python `float(str)`: strip surrounding whitespace then parse a finite
decimal literal; `none` models the `ValueError` raised on failure. -/
def pyFloat (s : String) : Option ℚ :=
  pyFloatCore (((s.data.dropWhile isPySpace).reverse.dropWhile isPySpace).reverse)

/-- A value passed as the `priority` argument: `str | float` (before the
optional-`None` wrapper). -/
def coercePriority (priority : Option (String ⊕ ℚ)) : Except PyError (Option ℚ) :=
  match priority with
  | Option.none => Except.ok Option.none
  | Option.some (Sum.inl s) =>
    match pyFloat s with
    | Option.some q => Except.ok (Option.some q)
    | Option.none =>
      Except.error (PyError.valueError ("could not convert string to float: '" ++ s ++ "'"))
  | Option.some (Sum.inr q) => Except.ok (Option.some q)

/-- The `Url.priority` setter: a non-`None` value outside `[0, 1]` raises
`ValueError` (`float()` on an already-float value is the identity). -/
def setPriority (p : Option ℚ) : Except PyError (Option ℚ) :=
  match p with
  | Option.none => Except.ok Option.none
  | Option.some q =>
    match decide (q < 0) || decide (1 < q) with
    | true => Except.error (PyError.valueError ("'" ++ toString q ++ "' is not between 0.0 and 1.0"))
    | false => Except.ok (Option.some q)

/-- A validated `<url>` record. -/
structure Url where
  loc : String
  lastmod : Option String
  changefreq : Option String
  priority : Option ℚ
deriving DecidableEq, Repr

/-- `Url.__init__`: assign `loc`, `lastmod`, `changefreq` in that order
(each setter may raise), then `float(priority) if priority is not None
else None` followed by the `priority` setter. -/
def Url.make (iso : String → Option String) (loc lastmod changefreq : Option String)
    (priority : Option (String ⊕ ℚ)) : Except PyError Url :=
  Except.bind (setLoc loc) (fun l =>
    Except.bind (setLastmod iso lastmod) (fun lm =>
      Except.bind (setChangefreq changefreq) (fun cf =>
        Except.bind (coercePriority priority) (fun praw =>
          Except.bind (setPriority praw) (fun p =>
            Except.ok ⟨l, lm, cf, p⟩)))))

/-- A validated `<sitemap>` record. -/
structure Sitemap where
  loc : String
  lastmod : Option String
deriving DecidableEq, Repr

/-- `Sitemap.__init__`: assign `loc` then `lastmod` through the `BaseData`
setters. -/
def Sitemap.make (iso : String → Option String) (loc : String) (lastmod : Option String) :
    Except PyError Sitemap :=
  Except.bind (setLoc (Option.some loc)) (fun l =>
    Except.bind (setLastmod iso lastmod) (fun lm =>
      Except.ok ⟨l, lm⟩))

/-- Lookup in a Python dict modelled as the list of assignments made to
it, in order: a repeated assignment to a key overwrites, so the value of a
key is that of its last assignment. -/
def dictGet {α : Type} (d : List (String × α)) (k : String) : Option α :=
  (d.reverse.find? (fun p => p.1 == k)).map (fun p => p.2)

/-- `UrlSet.allowed_fields`. -/
def allowedFields : List String := ["loc", "lastmod", "changefreq", "priority"]

/-- The dict built by `UrlSet.url_from_url_element`, as its assignment
sequence: for each child whose local name is in `allowed_fields`, assign
`(name, ele.text)`; other children are skipped. -/
def collectUrlData (children : List Element) : List (String × Option String) :=
  (children.filter (fun e => allowedFields.contains e.localName)).map
    (fun e => (e.localName, e.text))

/-- `Url(**url_data)`: keyword binding.  The dict's keys are already a
subset of the parameter names; a missing `loc` key is a `TypeError` at the
call, before the constructor body runs. -/
def urlFromUrlElement (iso : String → Option String) (e : Element) : Except PyError Url :=
  match dictGet (collectUrlData e.children) "loc" with
  | Option.none =>
    Except.error (PyError.typeError "__init__() missing 1 required positional argument: 'loc'")
  | Option.some locv =>
    Url.make iso locv ((dictGet (collectUrlData e.children) "lastmod").join)
      ((dictGet (collectUrlData e.children) "changefreq").join)
      (((dictGet (collectUrlData e.children) "priority").join).map Sum.inl)

/-- The dict built by `SitemapIndex.sitemap_from_sitemap_element`, as its
assignment sequence: every child's local name is captured (no filtering),
with `ele.text` defaulted to the empty string when absent. -/
def collectSitemapData (children : List Element) : List (String × String) :=
  children.map (fun e => (e.localName, e.text.getD ""))

/-- `Sitemap(**sitemap_data)`: keyword binding against parameters
`(loc, lastmod=None)`.  A key outside the parameter names is a
`TypeError`; a missing `loc` key is a `TypeError`; both precede the
constructor body. -/
def sitemapFromSitemapElement (iso : String → Option String) (e : Element) :
    Except PyError Sitemap :=
  match (collectSitemapData e.children).any (fun p => !(p.1 == "loc" || p.1 == "lastmod")) with
  | true =>
    Except.error (PyError.typeError "__init__() got an unexpected keyword argument")
  | false =>
    match dictGet (collectSitemapData e.children) "loc" with
    | Option.none =>
      Except.error (PyError.typeError "__init__() missing 1 required positional argument: 'loc'")
    | Option.some locv => Sitemap.make iso locv (dictGet (collectSitemapData e.children) "lastmod")

/-- Run a generator that yields `f c` for each child `c` in order: the
result is the list of yielded values up to (not including) the first child
whose construction raises, paired with that exception when there is one.
A raising child aborts the traversal: later children are not visited. -/
def runGen {α : Type} (f : Element → Except PyError α) :
    List Element → List α × Option PyError
  | [] => ([], Option.none)
  | c :: cs =>
    match f c with
    | Except.error e => ([], Option.some e)
    | Except.ok u =>
      let r := runGen f cs
      (u :: r.1, r.2)

/-- `UrlSet`: wraps the `<urlset>` element. -/
structure UrlSet where
  urlsetElement : Element

/-- `UrlSet.__iter__` run to exhaustion: a fresh generator over the
wrapped element's children (no cursor is stored on the collection). -/
def UrlSet.iter (iso : String → Option String) (u : UrlSet) : List Url × Option PyError :=
  runGen (urlFromUrlElement iso) u.urlsetElement.children

/-- `SitemapIndex`: wraps the `<sitemapindex>` element. -/
structure SitemapIndex where
  indexElement : Element

/-- `SitemapIndex.__iter__` run to exhaustion: `findall("./*")` lists the
immediate children, each converted in document order. -/
def SitemapIndex.iter (iso : String → Option String) (s : SitemapIndex) :
    List Sitemap × Option PyError :=
  runGen (sitemapFromSitemapElement iso) s.indexElement.children

/-- `SiteMapParser._is_sitemap_index_element`: the root's local name is
`sitemapindex` (the xpath `/*[local-name()='sitemapindex']` tests the
document root). -/
def isSitemapIndexElement (e : Element) : Bool :=
  e.localName == "sitemapindex"

/-- `SiteMapParser._is_url_set_element` (defined in the source but never
consulted by `_initialize`). -/
def isUrlSetElement (e : Element) : Bool :=
  e.localName == "urlset"

/-- The state of a constructed `SiteMapParser`. -/
structure SiteMapParser where
  isSitemapIndex : Bool
  sitemaps : Option SitemapIndex
  urlSet : Option UrlSet

/-- `SiteMapParser._initialize` after the root element has been parsed:
set `is_sitemap_index` from the sitemap-index check alone and store
exactly one collection; every non-sitemapindex root becomes a `UrlSet`. -/
def SiteMapParser.initFromRoot (root : Element) : SiteMapParser :=
  match isSitemapIndexElement root with
  | true => ⟨true, Option.some ⟨root⟩, Option.none⟩
  | false => ⟨false, Option.none, Option.some ⟨root⟩⟩

/-- `SiteMapParser.has_sitemaps`. -/
def SiteMapParser.hasSitemaps (p : SiteMapParser) : Bool :=
  p.isSitemapIndex

/-- `SiteMapParser.has_urls`. -/
def SiteMapParser.hasUrls (p : SiteMapParser) : Bool :=
  !p.isSitemapIndex

/-- `SiteMapParser.get_sitemaps`: `KeyError` when the root is not a
sitemap index, otherwise the stored collection. -/
def SiteMapParser.getSitemaps (p : SiteMapParser) : Except PyError SitemapIndex :=
  match p.hasSitemaps with
  | false => Except.error (PyError.keyError "Method called when root is not a <sitemapindex>")
  | true =>
    match p.sitemaps with
    | Option.none => Except.error (PyError.keyError "Sitemaps are not available")
    | Option.some s => Except.ok s

/-- `SiteMapParser.get_urls`: `KeyError` when the root is not a url set
(naming the actual kind when it is a sitemap index), otherwise the stored
collection. -/
def SiteMapParser.getUrls (p : SiteMapParser) : Except PyError UrlSet :=
  match p.hasUrls with
  | false =>
    Except.error (PyError.keyError
      (match p.isSitemapIndex with
      | true => "Method called when root is a <sitemapindex>. Use 'get_sitemaps()' instead"
      | false => "Method called when root is not a <urlset>"))
  | true =>
    match p.urlSet with
    | Option.none => Except.error (PyError.keyError "URLs are not available")
    | Option.some u => Except.ok u

/-! ## Helper lemmas -/

/-- `setLoc` on a value passing the URL-shape check. -/
theorem setLoc_eq_ok (v : Option String) (hc : locRegexMatch (pyStr v) = true) :
    setLoc v = Except.ok (pyStr v) := by
  unfold setLoc
  rw [hc]

/-- `setLoc` on a value failing the URL-shape check. -/
theorem setLoc_eq_error (v : Option String) (hc : locRegexMatch (pyStr v) = false) :
    setLoc v = Except.error (PyError.valueError (pyStr v ++ " is not a valid URL")) := by
  unfold setLoc
  rw [hc]

/-- A successfully set `loc` passed the URL-shape check. -/
theorem setLoc_ok_shape (v : Option String) (l : String) (h : setLoc v = Except.ok l) :
    locRegexMatch l = true := by
  cases hc : locRegexMatch (pyStr v) with
  | true =>
    rw [setLoc_eq_ok v hc, Except.ok.injEq] at h
    rw [← h]
    exact hc
  | false =>
    rw [setLoc_eq_error v hc] at h
    exact Except.noConfusion h

/-- A generator whose every child succeeds yields all the results in
order and raises nothing. -/
theorem runGen_all_ok {α : Type} (f : Element → Except PyError α) :
    ∀ (l : List Element) (rs : List α), l.map f = rs.map Except.ok →
      runGen f l = (rs, Option.none) := by
  intro l
  induction l with
  | nil =>
    intro rs h
    cases rs with
    | nil => rfl
    | cons r rs => simp at h
  | cons c cs ih =>
    intro rs h
    cases rs with
    | nil => simp at h
    | cons r rs =>
      simp only [List.map_cons, List.cons.injEq] at h
      unfold runGen
      rw [h.1, ih rs h.2]

/-- A generator whose prefix succeeds and then hits a raising child
yields exactly the prefix results and that exception; children after the
raising one are not visited. -/
theorem runGen_prefix_error {α : Type} (f : Element → Except PyError α) (err : PyError)
    (bad : Element) (hbad : f bad = Except.error err) :
    ∀ (pre : List Element) (rs : List α), pre.map f = rs.map Except.ok →
      ∀ post : List Element, runGen f (pre ++ bad :: post) = (rs, Option.some err) := by
  intro pre
  induction pre with
  | nil =>
    intro rs h post
    cases rs with
    | nil =>
      show runGen f (bad :: post) = ([], Option.some err)
      unfold runGen
      rw [hbad]
    | cons r rs => simp at h
  | cons c cs ih =>
    intro rs h post
    cases rs with
    | nil => simp at h
    | cons r rs =>
      simp only [List.map_cons, List.cons.injEq] at h
      show runGen f (c :: (cs ++ bad :: post)) = _
      unfold runGen
      rw [h.1, ih rs h.2 post]

/-! ## Claim theorems -/

/-- C1: for every constructed parser, `has_sitemaps()` and `has_urls()`
are mutually exclusive and jointly exhaustive (each is the Boolean
negation of the other), and both are determined once by the root element
at construction: nothing in the class mutates `is_sitemap_index`
afterwards, so in this pure embedding the classification is a function of
the root alone. -/
theorem hasSitemaps_hasUrls_exactly_one (root : Element) :
    (SiteMapParser.initFromRoot root).hasSitemaps
        = !(SiteMapParser.initFromRoot root).hasUrls ∧
    (SiteMapParser.initFromRoot root).hasSitemaps = isSitemapIndexElement root := by
  unfold SiteMapParser.initFromRoot SiteMapParser.hasSitemaps SiteMapParser.hasUrls
  cases isSitemapIndexElement root
  · exact ⟨rfl, rfl⟩
  · exact ⟨rfl, rfl⟩

/-- C3: `get_sitemaps()` returns the stored `SitemapIndex` exactly when
the document was classified as a sitemap index and otherwise fails with
the wrong-kind `KeyError`; symmetrically `get_urls()` returns the stored
`UrlSet` exactly when the document was a url set and otherwise fails with
the wrong-kind `KeyError` naming the actual kind.  Both accessors are
pure: a failing call leaves the parser unchanged, so the matching
accessor still succeeds on the same parser value. -/
theorem getSitemaps_getUrls_kind_guard (root : Element) :
    ((SiteMapParser.initFromRoot root).getSitemaps =
      match (SiteMapParser.initFromRoot root).hasSitemaps with
      | true => Except.ok ⟨root⟩
      | false =>
        Except.error (PyError.keyError "Method called when root is not a <sitemapindex>")) ∧
    ((SiteMapParser.initFromRoot root).getUrls =
      match (SiteMapParser.initFromRoot root).hasUrls with
      | true => Except.ok ⟨root⟩
      | false =>
        Except.error (PyError.keyError
          "Method called when root is a <sitemapindex>. Use 'get_sitemaps()' instead")) := by
  unfold SiteMapParser.initFromRoot SiteMapParser.getSitemaps SiteMapParser.getUrls
    SiteMapParser.hasSitemaps SiteMapParser.hasUrls
  cases isSitemapIndexElement root
  · exact ⟨rfl, rfl⟩
  · exact ⟨rfl, rfl⟩

/-- C5 counterexample: a root whose local name is neither `sitemapindex`
nor `urlset` is not given a third "unknown" outcome: `_initialize` only
consults the sitemap-index check and classifies the document as a url
set, storing a `UrlSet` for it. -/
theorem unknownRoot_classified_as_urlset_counterexample :
    isSitemapIndexElement (Element.mk "foo" Option.none []) = false ∧
    isUrlSetElement (Element.mk "foo" Option.none []) = false ∧
    (SiteMapParser.initFromRoot (Element.mk "foo" Option.none [])).hasUrls = true ∧
    (SiteMapParser.initFromRoot (Element.mk "foo" Option.none [])).urlSet =
      Option.some ⟨Element.mk "foo" Option.none []⟩ :=
  ⟨rfl, rfl, rfl, rfl⟩

/-- C5 amended: classification is two-way, not three-way: every root
element that is not a `sitemapindex` — including roots that are neither
`sitemapindex` nor `urlset` — is classified as a url set; the url-set
check is never consulted. -/
theorem nonSitemapIndexRoot_becomes_urlset (root : Element)
    (h : isSitemapIndexElement root = false) :
    SiteMapParser.initFromRoot root = ⟨false, Option.none, Option.some ⟨root⟩⟩ := by
  unfold SiteMapParser.initFromRoot
  rw [h]

/-- Witness for the amended C5 theorem at the concrete root `<foo/>`. -/
theorem nonSitemapIndexRoot_becomes_urlset_witness :
    SiteMapParser.initFromRoot (Element.mk "foo" Option.none []) =
      ⟨false, Option.none, Option.some ⟨Element.mk "foo" Option.none []⟩⟩ :=
  nonSitemapIndexRoot_becomes_urlset (Element.mk "foo" Option.none []) rfl


/-- `Except.bind` on a success. -/
theorem exceptBind_ok {α β : Type} (a : α) (f : α → Except PyError β) :
    Except.bind (Except.ok a) f = f a := rfl

/-- `Except.bind` on a failure. -/
theorem exceptBind_error {α β : Type} (e : PyError) (f : α → Except PyError β) :
    Except.bind (Except.error e) f = Except.error e := rfl

/-- `setLastmod` on an absent value. -/
theorem setLastmod_none (iso : String → Option String) :
    setLastmod iso Option.none = Except.ok Option.none := rfl

/-- `setLastmod` on a parseable timestamp. -/
theorem setLastmod_some_ok (iso : String → Option String) (s d : String)
    (h : iso s = Option.some d) :
    setLastmod iso (Option.some s) = Except.ok (Option.some d) := by
  simp only [setLastmod, h]

/-- `setLastmod` on an unparseable timestamp. -/
theorem setLastmod_some_error (iso : String → Option String) (s : String)
    (h : iso s = Option.none) :
    setLastmod iso (Option.some s) =
      Except.error (PyError.valueError ("Invalid isoformat string: " ++ s)) := by
  simp only [setLastmod, h]

/-- `setChangefreq` on an absent value. -/
theorem setChangefreq_none : setChangefreq Option.none = Except.ok Option.none := rfl

/-- `setChangefreq` on an allowed frequency. -/
theorem setChangefreq_some_ok (f : String) (h : validFreqs.contains f = true) :
    setChangefreq (Option.some f) = Except.ok (Option.some f) := by
  simp only [setChangefreq, h]

/-- `setChangefreq` on a disallowed frequency. -/
theorem setChangefreq_some_error (f : String) (h : validFreqs.contains f = false) :
    setChangefreq (Option.some f) =
      Except.error (PyError.valueError ("'" ++ f ++ "' is not an allowed value")) := by
  simp only [setChangefreq, h]

/-- Priority coercion on an absent value. -/
theorem coercePriority_none : coercePriority Option.none = Except.ok Option.none := rfl

/-- Priority coercion on a numeric string. -/
theorem coercePriority_inl_ok (s : String) (q : ℚ) (h : pyFloat s = Option.some q) :
    coercePriority (Option.some (Sum.inl s)) = Except.ok (Option.some q) := by
  simp only [coercePriority, h]

/-- Priority coercion on a non-numeric string. -/
theorem coercePriority_inl_error (s : String) (h : pyFloat s = Option.none) :
    coercePriority (Option.some (Sum.inl s)) =
      Except.error (PyError.valueError ("could not convert string to float: '" ++ s ++ "'")) := by
  simp only [coercePriority, h]

/-- Priority coercion on an already-numeric value. -/
theorem coercePriority_inr (q : ℚ) :
    coercePriority (Option.some (Sum.inr q)) = Except.ok (Option.some q) := rfl

/-- `setPriority` on an absent value. -/
theorem setPriority_none : setPriority Option.none = Except.ok Option.none := rfl

/-- `setPriority` on an in-range value. -/
theorem setPriority_some_ok (q : ℚ) (h : (decide (q < 0) || decide (1 < q)) = false) :
    setPriority (Option.some q) = Except.ok (Option.some q) := by
  simp only [setPriority, h]

/-- `setPriority` on an out-of-range value. -/
theorem setPriority_some_error (q : ℚ) (h : (decide (q < 0) || decide (1 < q)) = true) :
    setPriority (Option.some q) =
      Except.error (PyError.valueError ("'" ++ toString q ++ "' is not between 0.0 and 1.0")) := by
  simp only [setPriority, h]

/-- `Url.__init__` succeeds when every setter succeeds, yielding the
record of the set values. -/
theorem Url.make_eq_ok_of (iso : String → Option String) (loc lm cf : Option String)
    (pr : Option (String ⊕ ℚ)) (l : String) (lmv cfv : Option String) (praw p : Option ℚ)
    (h1 : setLoc loc = Except.ok l) (h2 : setLastmod iso lm = Except.ok lmv)
    (h3 : setChangefreq cf = Except.ok cfv) (h4 : coercePriority pr = Except.ok praw)
    (h5 : setPriority praw = Except.ok p) :
    Url.make iso loc lm cf pr = Except.ok ⟨l, lmv, cfv, p⟩ := by
  simp only [Url.make, h1, h2, h3, h4, h5, exceptBind_ok]

/-- A successful `Url.__init__` inverts to a success of every setter. -/
theorem Url.make_ok_inv (iso : String → Option String) (loc lm cf : Option String)
    (pr : Option (String ⊕ ℚ)) (u : Url) (h : Url.make iso loc lm cf pr = Except.ok u) :
    setLoc loc = Except.ok u.loc ∧ setLastmod iso lm = Except.ok u.lastmod ∧
    setChangefreq cf = Except.ok u.changefreq ∧
    ∃ praw, coercePriority pr = Except.ok praw ∧ setPriority praw = Except.ok u.priority := by
  unfold Url.make at h
  cases hl : setLoc loc with
  | error e => rw [hl, exceptBind_error] at h; exact Except.noConfusion h
  | ok l =>
    rw [hl, exceptBind_ok] at h
    cases hm : setLastmod iso lm with
    | error e => rw [hm, exceptBind_error] at h; exact Except.noConfusion h
    | ok lmv =>
      rw [hm, exceptBind_ok] at h
      cases hcf : setChangefreq cf with
      | error e => rw [hcf, exceptBind_error] at h; exact Except.noConfusion h
      | ok cfv =>
        rw [hcf, exceptBind_ok] at h
        cases hp : coercePriority pr with
        | error e => rw [hp, exceptBind_error] at h; exact Except.noConfusion h
        | ok praw =>
          rw [hp, exceptBind_ok] at h
          cases hq : setPriority praw with
          | error e => rw [hq, exceptBind_error] at h; exact Except.noConfusion h
          | ok p =>
            rw [hq, exceptBind_ok, Except.ok.injEq] at h
            rw [← h]
            exact ⟨rfl, rfl, rfl, praw, rfl, hq⟩

/-- A failing `Url.__init__` inverts to a failure of one of the setters,
carrying that setter's exception. -/
theorem Url.make_error_source (iso : String → Option String) (loc lm cf : Option String)
    (pr : Option (String ⊕ ℚ)) (e : PyError) (h : Url.make iso loc lm cf pr = Except.error e) :
    setLoc loc = Except.error e ∨ setLastmod iso lm = Except.error e ∨
    setChangefreq cf = Except.error e ∨ coercePriority pr = Except.error e ∨
    ∃ praw, coercePriority pr = Except.ok praw ∧ setPriority praw = Except.error e := by
  unfold Url.make at h
  cases hl : setLoc loc with
  | error e0 =>
    rw [hl, exceptBind_error, Except.error.injEq] at h
    exact Or.inl (congrArg Except.error h)
  | ok l =>
    rw [hl, exceptBind_ok] at h
    cases hm : setLastmod iso lm with
    | error e0 =>
      rw [hm, exceptBind_error, Except.error.injEq] at h
      exact Or.inr (Or.inl (congrArg Except.error h))
    | ok lmv =>
      rw [hm, exceptBind_ok] at h
      cases hcf : setChangefreq cf with
      | error e0 =>
        rw [hcf, exceptBind_error, Except.error.injEq] at h
        exact Or.inr (Or.inr (Or.inl (congrArg Except.error h)))
      | ok cfv =>
        rw [hcf, exceptBind_ok] at h
        cases hp : coercePriority pr with
        | error e0 =>
          rw [hp, exceptBind_error, Except.error.injEq] at h
          exact Or.inr (Or.inr (Or.inr (Or.inl (congrArg Except.error h))))
        | ok praw =>
          rw [hp, exceptBind_ok] at h
          cases hq : setPriority praw with
          | error e0 =>
            rw [hq, exceptBind_error, Except.error.injEq] at h
            rw [h] at hq
            exact Or.inr (Or.inr (Or.inr (Or.inr ⟨praw, rfl, hq⟩)))
          | ok p =>
            rw [hq, exceptBind_ok] at h
            exact Except.noConfusion h

/-- A successful `Sitemap.__init__` inverts to a success of both setters. -/
theorem Sitemap.make_ok_fields (iso : String → Option String) (loc : String)
    (lm : Option String) (sm : Sitemap) (h : Sitemap.make iso loc lm = Except.ok sm) :
    setLoc (Option.some loc) = Except.ok sm.loc ∧ setLastmod iso lm = Except.ok sm.lastmod := by
  unfold Sitemap.make at h
  cases hl : setLoc (Option.some loc) with
  | error e => rw [hl, exceptBind_error] at h; exact Except.noConfusion h
  | ok l =>
    rw [hl, exceptBind_ok] at h
    cases hm : setLastmod iso lm with
    | error e => rw [hm, exceptBind_error] at h; exact Except.noConfusion h
    | ok lmv =>
      rw [hm, exceptBind_ok, Except.ok.injEq] at h
      rw [← h]
      exact ⟨rfl, rfl⟩

/-- Every `loc` setter failure is a `ValueError`. -/
theorem setLoc_error_shape (v : Option String) (e : PyError) (h : setLoc v = Except.error e) :
    ∃ m, e = PyError.valueError m := by
  cases hc : locRegexMatch (pyStr v) with
  | true =>
    rw [setLoc_eq_ok v hc] at h
    exact Except.noConfusion h
  | false =>
    rw [setLoc_eq_error v hc, Except.error.injEq] at h
    exact ⟨pyStr v ++ " is not a valid URL", h.symm⟩

/-- Every `lastmod` setter failure is a `ValueError`. -/
theorem setLastmod_error_shape (iso : String → Option String) (v : Option String) (e : PyError)
    (h : setLastmod iso v = Except.error e) : ∃ m, e = PyError.valueError m := by
  cases v with
  | none => rw [setLastmod_none] at h; exact Except.noConfusion h
  | some s =>
    cases hi : iso s with
    | some d => rw [setLastmod_some_ok iso s d hi] at h; exact Except.noConfusion h
    | none =>
      rw [setLastmod_some_error iso s hi, Except.error.injEq] at h
      exact ⟨"Invalid isoformat string: " ++ s, h.symm⟩

/-- Every `changefreq` setter failure is a `ValueError`. -/
theorem setChangefreq_error_shape (v : Option String) (e : PyError)
    (h : setChangefreq v = Except.error e) : ∃ m, e = PyError.valueError m := by
  cases v with
  | none => rw [setChangefreq_none] at h; exact Except.noConfusion h
  | some f =>
    cases hc : validFreqs.contains f with
    | true => rw [setChangefreq_some_ok f hc] at h; exact Except.noConfusion h
    | false =>
      rw [setChangefreq_some_error f hc, Except.error.injEq] at h
      exact ⟨"'" ++ f ++ "' is not an allowed value", h.symm⟩

/-- Every priority coercion failure is a `ValueError`. -/
theorem coercePriority_error_shape (v : Option (String ⊕ ℚ)) (e : PyError)
    (h : coercePriority v = Except.error e) : ∃ m, e = PyError.valueError m := by
  cases v with
  | none => rw [coercePriority_none] at h; exact Except.noConfusion h
  | some a =>
    cases a with
    | inl s =>
      cases hf : pyFloat s with
      | some q => rw [coercePriority_inl_ok s q hf] at h; exact Except.noConfusion h
      | none =>
        rw [coercePriority_inl_error s hf, Except.error.injEq] at h
        exact ⟨"could not convert string to float: '" ++ s ++ "'", h.symm⟩
    | inr q => rw [coercePriority_inr q] at h; exact Except.noConfusion h

/-- Every `priority` setter failure is a `ValueError`. -/
theorem setPriority_error_shape (v : Option ℚ) (e : PyError)
    (h : setPriority v = Except.error e) : ∃ m, e = PyError.valueError m := by
  cases v with
  | none => rw [setPriority_none] at h; exact Except.noConfusion h
  | some q =>
    cases hd : (decide (q < 0) || decide (1 < q)) with
    | false => rw [setPriority_some_ok q hd] at h; exact Except.noConfusion h
    | true =>
      rw [setPriority_some_error q hd, Except.error.injEq] at h
      exact ⟨"'" ++ toString q ++ "' is not between 0.0 and 1.0", h.symm⟩

/-- Every `Url.__init__` failure is a `ValueError`. -/
theorem Url.make_error_shape (iso : String → Option String) (loc lm cf : Option String)
    (pr : Option (String ⊕ ℚ)) (e : PyError) (h : Url.make iso loc lm cf pr = Except.error e) :
    ∃ m, e = PyError.valueError m := by
  rcases Url.make_error_source iso loc lm cf pr e h with h1 | h2 | h3 | h4 | ⟨praw, hp, h5⟩
  · exact setLoc_error_shape loc e h1
  · exact setLastmod_error_shape iso lm e h2
  · exact setChangefreq_error_shape cf e h3
  · exact coercePriority_error_shape pr e h4
  · exact setPriority_error_shape praw e h5

/-- `Url.__init__` either succeeds or raises a `ValueError`. -/
theorem Url.make_ok_or_valueError (iso : String → Option String) (loc lm cf : Option String)
    (pr : Option (String ⊕ ℚ)) :
    (∃ u, Url.make iso loc lm cf pr = Except.ok u) ∨
    (∃ m, Url.make iso loc lm cf pr = Except.error (PyError.valueError m)) := by
  cases hv : Url.make iso loc lm cf pr with
  | ok u => exact Or.inl ⟨u, rfl⟩
  | error e =>
    rcases Url.make_error_shape iso loc lm cf pr e hv with ⟨m, hm⟩
    exact Or.inr ⟨m, congrArg Except.error hm⟩


/-- C4: `Url` construction fails with a `ValueError` exactly when some
supplied field violates its contract — a `loc` failing the
`^https?://` shape, an unparseable `lastmod`, a non-null `changefreq`
outside the closed enumeration, a `priority` string that does not coerce
to a number, or a coerced priority outside the closed range `[0, 1]` —
and the boundary priorities `0.0` and `1.0` are both accepted. -/
theorem url_validation_iff_boundary (iso : String → Option String) (loc lm cf : Option String)
    (pr : Option (String ⊕ ℚ)) :
    ((∃ m, Url.make iso loc lm cf pr = Except.error (PyError.valueError m)) ↔
      (locRegexMatch (pyStr loc) = false ∨
       (∃ s, lm = Option.some s ∧ iso s = Option.none) ∨
       (∃ f, cf = Option.some f ∧ validFreqs.contains f = false) ∨
       (∃ s, pr = Option.some (Sum.inl s) ∧ pyFloat s = Option.none) ∨
       (∃ q, coercePriority pr = Except.ok (Option.some q) ∧ (q < 0 ∨ 1 < q)))) ∧
    Url.make iso (Option.some "http://x") Option.none Option.none (Option.some (Sum.inr 0)) =
      Except.ok ⟨"http://x", Option.none, Option.none, Option.some 0⟩ ∧
    Url.make iso (Option.some "http://x") Option.none Option.none (Option.some (Sum.inr 1)) =
      Except.ok ⟨"http://x", Option.none, Option.none, Option.some 1⟩ := by
  refine ⟨⟨?_, ?_⟩, ?_, ?_⟩
  · rintro ⟨m, hm⟩
    rcases Url.make_error_source iso loc lm cf pr _ hm with h1 | h2 | h3 | h4 | ⟨praw, hp, h5⟩
    · left
      cases hc : locRegexMatch (pyStr loc) with
      | true => rw [setLoc_eq_ok loc hc] at h1; exact Except.noConfusion h1
      | false => rfl
    · right; left
      cases lm with
      | none => rw [setLastmod_none] at h2; exact Except.noConfusion h2
      | some s =>
        cases hi : iso s with
        | some d => rw [setLastmod_some_ok iso s d hi] at h2; exact Except.noConfusion h2
        | none => exact ⟨s, rfl, hi⟩
    · right; right; left
      cases cf with
      | none => rw [setChangefreq_none] at h3; exact Except.noConfusion h3
      | some f =>
        cases hc : validFreqs.contains f with
        | true => rw [setChangefreq_some_ok f hc] at h3; exact Except.noConfusion h3
        | false => exact ⟨f, rfl, hc⟩
    · right; right; right; left
      cases pr with
      | none => rw [coercePriority_none] at h4; exact Except.noConfusion h4
      | some a =>
        cases a with
        | inl s =>
          cases hf : pyFloat s with
          | some q => rw [coercePriority_inl_ok s q hf] at h4; exact Except.noConfusion h4
          | none => exact ⟨s, rfl, hf⟩
        | inr q => rw [coercePriority_inr q] at h4; exact Except.noConfusion h4
    · right; right; right; right
      cases praw with
      | none => rw [setPriority_none] at h5; exact Except.noConfusion h5
      | some q =>
        cases hd : (decide (q < 0) || decide (1 < q)) with
        | false => rw [setPriority_some_ok q hd] at h5; exact Except.noConfusion h5
        | true =>
          refine ⟨q, hp, ?_⟩
          simp only [Bool.or_eq_true, decide_eq_true_eq] at hd
          exact hd
  · intro hV
    rcases Url.make_ok_or_valueError iso loc lm cf pr with ⟨u, hu⟩ | ⟨m, hm⟩
    · exfalso
      rcases Url.make_ok_inv iso loc lm cf pr u hu with ⟨hl, hm2, hcf2, praw, hp, hsp⟩
      rcases hV with h1 | ⟨s, hs, hi⟩ | ⟨f, hf, hc⟩ | ⟨s, hs, hf⟩ | ⟨q, hcq, hout⟩
      · rw [setLoc_eq_error loc h1] at hl
        exact Except.noConfusion hl
      · rw [hs, setLastmod_some_error iso s hi] at hm2
        exact Except.noConfusion hm2
      · rw [hf, setChangefreq_some_error f hc] at hcf2
        exact Except.noConfusion hcf2
      · rw [hs, coercePriority_inl_error s hf] at hp
        exact Except.noConfusion hp
      · rw [hcq, Except.ok.injEq] at hp
        rw [← hp] at hsp
        have hd : (decide (q < 0) || decide (1 < q)) = true := by
          rcases hout with h | h
          · rw [decide_eq_true h]
            rfl
          · rw [decide_eq_true h, Bool.or_true]
        rw [setPriority_some_error q hd] at hsp
        exact Except.noConfusion hsp
    · exact ⟨m, hm⟩
  · exact Url.make_eq_ok_of iso (Option.some "http://x") Option.none Option.none
      (Option.some (Sum.inr 0)) "http://x" Option.none Option.none (Option.some 0)
      (Option.some 0) rfl rfl rfl rfl rfl
  · exact Url.make_eq_ok_of iso (Option.some "http://x") Option.none Option.none
      (Option.some (Sum.inr 1)) "http://x" Option.none Option.none (Option.some 1)
      (Option.some 1) rfl rfl rfl rfl rfl

/-- A string passing the URL-shape check is nonempty. -/
theorem locRegexMatch_ne_empty (s : String) (h : locRegexMatch s = true) : s ≠ "" := by
  intro he
  rw [he] at h
  exact absurd h (by decide)

/-- C9: every successfully constructed `Url` or `Sitemap` record has a
`loc` beginning with `http://` or `https://` (hence nonempty); the `loc`
setter is the only way a `loc` is ever assigned, and it stringifies
`None` to the string `"None"`, which then fails the shape check, so no
record with an invalid `loc` can exist. -/
theorem record_loc_url_shape_invariant (iso : String → Option String)
    (loc lm cf : Option String) (pr : Option (String ⊕ ℚ)) (u : Url)
    (sloc : String) (slm : Option String) (sm : Sitemap)
    (hu : Url.make iso loc lm cf pr = Except.ok u)
    (hs : Sitemap.make iso sloc slm = Except.ok sm) :
    locRegexMatch u.loc = true ∧ u.loc ≠ "" ∧
    locRegexMatch sm.loc = true ∧ sm.loc ≠ "" ∧
    setLoc Option.none = Except.error (PyError.valueError "None is not a valid URL") := by
  have h1 : locRegexMatch u.loc = true :=
    setLoc_ok_shape loc u.loc (Url.make_ok_inv iso loc lm cf pr u hu).1
  have h2 : locRegexMatch sm.loc = true :=
    setLoc_ok_shape (Option.some sloc) sm.loc (Sitemap.make_ok_fields iso sloc slm sm hs).1
  exact ⟨h1, locRegexMatch_ne_empty u.loc h1, h2, locRegexMatch_ne_empty sm.loc h2, rfl⟩

/-- Witness for C9 at concrete records built from `http://a` and
`https://b`. -/
theorem record_loc_url_shape_invariant_witness :
    Url.make (fun s => Option.some s) (Option.some "http://a") Option.none Option.none
        Option.none = Except.ok ⟨"http://a", Option.none, Option.none, Option.none⟩ ∧
    Sitemap.make (fun s => Option.some s) "https://b" Option.none =
        Except.ok ⟨"https://b", Option.none⟩ ∧
    (locRegexMatch (Url.mk "http://a" Option.none Option.none Option.none).loc = true ∧
      (Url.mk "http://a" Option.none Option.none Option.none).loc ≠ "" ∧
      locRegexMatch (Sitemap.mk "https://b" Option.none).loc = true ∧
      (Sitemap.mk "https://b" Option.none).loc ≠ "" ∧
      setLoc Option.none = Except.error (PyError.valueError "None is not a valid URL")) :=
  ⟨rfl, rfl,
    record_loc_url_shape_invariant (fun s => Option.some s) (Option.some "http://a")
      Option.none Option.none Option.none ⟨"http://a", Option.none, Option.none, Option.none⟩
      "https://b" Option.none ⟨"https://b", Option.none⟩ rfl rfl⟩

/-- C10: a numeric priority string is accepted exactly through `float()`
coercion: an in-range numeric string is stored as its numeric value, a
non-numeric string fails at the coercion step with the conversion
`ValueError` (not the range-check message), and the concrete string
`"0.8"` parses to the rational `8/10`. -/
theorem priority_string_coercion (iso : String → Option String) (s sBad : String) (q : ℚ)
    (h : pyFloat s = Option.some q) (hq : 0 ≤ q ∧ q ≤ 1) (hb : pyFloat sBad = Option.none) :
    Url.make iso (Option.some "http://x") Option.none Option.none
        (Option.some (Sum.inl s)) =
      Except.ok ⟨"http://x", Option.none, Option.none, Option.some q⟩ ∧
    Url.make iso (Option.some "http://x") Option.none Option.none
        (Option.some (Sum.inl sBad)) =
      Except.error
        (PyError.valueError ("could not convert string to float: '" ++ sBad ++ "'")) ∧
    pyFloat "0.8" = Option.some (mkRat 8 10) := by
  have hd : (decide (q < 0) || decide (1 < q)) = false := by
    rw [decide_eq_false (not_lt.mpr hq.1), decide_eq_false (not_lt.mpr hq.2)]
    rfl
  refine ⟨?_, ?_, by decide⟩
  · exact Url.make_eq_ok_of iso (Option.some "http://x") Option.none Option.none
      (Option.some (Sum.inl s)) "http://x" Option.none Option.none (Option.some q)
      (Option.some q) rfl rfl rfl (coercePriority_inl_ok s q h) (setPriority_some_ok q hd)
  · have e1 : setLoc (Option.some "http://x") = Except.ok "http://x" := rfl
    simp only [Url.make, e1, setLastmod_none, setChangefreq_none,
      coercePriority_inl_error sBad hb, exceptBind_ok, exceptBind_error]

/-- Witness for C10 at the numeric string `"0.8"` and the non-numeric
string `"bogus"`. -/
theorem priority_string_coercion_witness :
    pyFloat "0.8" = Option.some (mkRat 8 10) ∧ (0 ≤ mkRat 8 10 ∧ mkRat 8 10 ≤ 1) ∧
    pyFloat "bogus" = Option.none ∧
    (Url.make (fun s => Option.some s) (Option.some "http://x") Option.none Option.none
        (Option.some (Sum.inl "0.8")) =
      Except.ok ⟨"http://x", Option.none, Option.none, Option.some (mkRat 8 10)⟩ ∧
    Url.make (fun s => Option.some s) (Option.some "http://x") Option.none Option.none
        (Option.some (Sum.inl "bogus")) =
      Except.error
        (PyError.valueError ("could not convert string to float: '" ++ "bogus" ++ "'")) ∧
    pyFloat "0.8" = Option.some (mkRat 8 10)) :=
  ⟨by decide, ⟨by decide, by decide⟩, by decide,
    priority_string_coercion (fun s => Option.some s) "0.8" "bogus" (mkRat 8 10)
      (by decide) ⟨by decide, by decide⟩ (by decide)⟩

/-- C2: for a `<urlset>` whose N children all construct successfully (and
analogously a `<sitemapindex>`), running the iteration yields exactly the
N records in document order with no exception; and since `__iter__`
builds a fresh generator from the wrapped element's children — the
collection stores no cursor — a second run of the iteration entry point
is the very same traversal from the first child, yielding the identical
sequence. -/
theorem iteration_yields_all_children_in_order (iso : String → Option String)
    (e1 e2 : Element) (us : List Url) (ss : List Sitemap)
    (hu : e1.children.map (urlFromUrlElement iso) = us.map Except.ok)
    (hs : e2.children.map (sitemapFromSitemapElement iso) = ss.map Except.ok) :
    UrlSet.iter iso ⟨e1⟩ = (us, Option.none) ∧ us.length = e1.children.length ∧
    SitemapIndex.iter iso ⟨e2⟩ = (ss, Option.none) ∧ ss.length = e2.children.length ∧
    UrlSet.iter iso ⟨e1⟩ = UrlSet.iter iso ⟨e1⟩ ∧
    SitemapIndex.iter iso ⟨e2⟩ = SitemapIndex.iter iso ⟨e2⟩ := by
  refine ⟨runGen_all_ok (urlFromUrlElement iso) e1.children us hu, ?_,
    runGen_all_ok (sitemapFromSitemapElement iso) e2.children ss hs, ?_, rfl, rfl⟩
  · have h2 := congrArg List.length hu
    simp only [List.length_map] at h2
    exact h2.symm
  · have h2 := congrArg List.length hs
    simp only [List.length_map] at h2
    exact h2.symm

/-- Witness for C2 at a two-`<url>` url set and a one-`<sitemap>` index. -/
theorem iteration_yields_all_children_in_order_witness :
    (Element.mk "urlset" Option.none
        [Element.mk "url" Option.none [Element.mk "loc" (Option.some "http://a") []],
         Element.mk "url" Option.none
           [Element.mk "loc" (Option.some "http://b") []]]).children.map
        (urlFromUrlElement (fun s => Option.some s)) =
      ([⟨"http://a", Option.none, Option.none, Option.none⟩,
        ⟨"http://b", Option.none, Option.none, Option.none⟩] : List Url).map Except.ok ∧
    (Element.mk "sitemapindex" Option.none
        [Element.mk "sitemap" Option.none
          [Element.mk "loc" (Option.some "https://s") []]]).children.map
        (sitemapFromSitemapElement (fun s => Option.some s)) =
      ([⟨"https://s", Option.none⟩] : List Sitemap).map Except.ok ∧
    UrlSet.iter (fun s => Option.some s)
        ⟨Element.mk "urlset" Option.none
          [Element.mk "url" Option.none [Element.mk "loc" (Option.some "http://a") []],
           Element.mk "url" Option.none [Element.mk "loc" (Option.some "http://b") []]]⟩ =
      ([⟨"http://a", Option.none, Option.none, Option.none⟩,
        ⟨"http://b", Option.none, Option.none, Option.none⟩], Option.none) :=
  ⟨rfl, rfl,
    (iteration_yields_all_children_in_order (fun s => Option.some s)
      (Element.mk "urlset" Option.none
        [Element.mk "url" Option.none [Element.mk "loc" (Option.some "http://a") []],
         Element.mk "url" Option.none [Element.mk "loc" (Option.some "http://b") []]])
      (Element.mk "sitemapindex" Option.none
        [Element.mk "sitemap" Option.none [Element.mk "loc" (Option.some "https://s") []]])
      [⟨"http://a", Option.none, Option.none, Option.none⟩,
       ⟨"http://b", Option.none, Option.none, Option.none⟩]
      [⟨"https://s", Option.none⟩] rfl rfl).1⟩

/-- C8: a child whose record construction raises propagates that
exception to the iterating caller and aborts the sequence at that child:
the run yields exactly the records of the preceding children, produces
nothing for the failing child, and never visits the children after it. -/
theorem malformed_child_aborts_iteration (iso : String → Option String)
    (n : String) (t : Option String) (pre post : List Element) (bad : Element)
    (err : PyError) (us : List Url)
    (hpre : pre.map (urlFromUrlElement iso) = us.map Except.ok)
    (hbad : urlFromUrlElement iso bad = Except.error err) :
    UrlSet.iter iso ⟨Element.mk n t (pre ++ bad :: post)⟩ = (us, Option.some err) :=
  runGen_prefix_error (urlFromUrlElement iso) err bad hbad pre us hpre post

/-- Witness for C8: a good child, then a child with an invalid `loc`,
then a further good child that is never reached. -/
theorem malformed_child_aborts_iteration_witness :
    ([Element.mk "url" Option.none [Element.mk "loc" (Option.some "http://a") []]].map
        (urlFromUrlElement (fun s => Option.some s)) =
      ([⟨"http://a", Option.none, Option.none, Option.none⟩] : List Url).map Except.ok) ∧
    (urlFromUrlElement (fun s => Option.some s)
        (Element.mk "url" Option.none [Element.mk "loc" (Option.some "notaurl") []]) =
      Except.error (PyError.valueError "notaurl is not a valid URL")) ∧
    UrlSet.iter (fun s => Option.some s)
        ⟨Element.mk "urlset" Option.none
          ([Element.mk "url" Option.none [Element.mk "loc" (Option.some "http://a") []]] ++
            Element.mk "url" Option.none [Element.mk "loc" (Option.some "notaurl") []] ::
              [Element.mk "url" Option.none
                [Element.mk "loc" (Option.some "http://c") []]])⟩ =
      ([⟨"http://a", Option.none, Option.none, Option.none⟩],
        Option.some (PyError.valueError "notaurl is not a valid URL")) :=
  ⟨rfl, rfl,
    malformed_child_aborts_iteration (fun s => Option.some s) "urlset" Option.none
      [Element.mk "url" Option.none [Element.mk "loc" (Option.some "http://a") []]]
      [Element.mk "url" Option.none [Element.mk "loc" (Option.some "http://c") []]]
      (Element.mk "url" Option.none [Element.mk "loc" (Option.some "notaurl") []])
      (PyError.valueError "notaurl is not a valid URL")
      [⟨"http://a", Option.none, Option.none, Option.none⟩] rfl rfl⟩

/-- Collecting url data skips a child whose local name is not an allowed
field, wherever in the child list it occurs. -/
theorem collectUrlData_skip (pre post : List Element) (c : Element)
    (hc : allowedFields.contains c.localName = false) :
    collectUrlData (pre ++ c :: post) = collectUrlData (pre ++ post) := by
  have hne : c.localName ∉ allowedFields := by simpa using hc
  have hskip : List.filter (fun e => allowedFields.contains e.localName) (c :: post) =
      List.filter (fun e => allowedFields.contains e.localName) post := by
    simp [List.filter_cons, hne]
  unfold collectUrlData
  rw [List.filter_append, List.filter_append, hskip]

/-- C6 counterexample: a `<sitemap>` element with an extra unrecognized
child `<foo>` is not constructed by silently ignoring the child — the
child's name is captured into the keyword dict and construction fails
with a `TypeError`, while the same element without the extra child
succeeds. -/
theorem sitemap_unknown_child_counterexample :
    sitemapFromSitemapElement (fun s => Option.some s) (Element.mk "sitemap" Option.none
        [Element.mk "loc" (Option.some "http://x") [],
         Element.mk "foo" (Option.some "bar") []]) =
      Except.error (PyError.typeError "__init__() got an unexpected keyword argument") ∧
    sitemapFromSitemapElement (fun s => Option.some s) (Element.mk "sitemap" Option.none
        [Element.mk "loc" (Option.some "http://x") []]) =
      Except.ok ⟨"http://x", Option.none⟩ :=
  ⟨rfl, rfl⟩

/-- C6 amended: only `Url` construction ignores unrecognized children —
removing such a child from a `<url>` element leaves the result unchanged;
`Sitemap` construction captures every child name, so an unrecognized
child always makes it fail with a `TypeError`. -/
theorem unrecognized_child_url_ignored_sitemap_rejected (iso : String → Option String)
    (n : String) (t : Option String) (pre post : List Element) (c : Element)
    (hc : allowedFields.contains c.localName = false) :
    urlFromUrlElement iso (Element.mk n t (pre ++ c :: post)) =
      urlFromUrlElement iso (Element.mk n t (pre ++ post)) ∧
    ∃ m, sitemapFromSitemapElement iso (Element.mk n t (pre ++ c :: post)) =
      Except.error (PyError.typeError m) := by
  have hnotin : c.localName ≠ "loc" ∧ c.localName ≠ "lastmod" := by
    constructor
    · intro h
      have h2 : allowedFields.contains c.localName = true := by rw [h]; decide
      rw [h2] at hc
      exact Bool.noConfusion hc
    · intro h
      have h2 : allowedFields.contains c.localName = true := by rw [h]; decide
      rw [h2] at hc
      exact Bool.noConfusion hc
  constructor
  · have hcc : collectUrlData (pre ++ c :: post) = collectUrlData (pre ++ post) :=
      collectUrlData_skip pre post c hc
    unfold urlFromUrlElement
    show (match dictGet (collectUrlData (pre ++ c :: post)) "loc" with
      | Option.none => Except.error
          (PyError.typeError "__init__() missing 1 required positional argument: 'loc'")
      | Option.some locv =>
        Url.make iso locv ((dictGet (collectUrlData (pre ++ c :: post)) "lastmod").join)
          ((dictGet (collectUrlData (pre ++ c :: post)) "changefreq").join)
          (((dictGet (collectUrlData (pre ++ c :: post)) "priority").join).map Sum.inl)) = _
    rw [hcc]
    rfl
  · have hany : (collectSitemapData (pre ++ c :: post)).any
        (fun p => !(p.1 == "loc" || p.1 == "lastmod")) = true := by
      unfold collectSitemapData
      rw [List.any_eq_true]
      refine ⟨(c.localName, c.text.getD ""), ?_, ?_⟩
      · exact List.mem_map_of_mem _ (List.mem_append_right pre (List.mem_cons_self c post))
      · simp [hnotin.1, hnotin.2]
    refine ⟨"__init__() got an unexpected keyword argument", ?_⟩
    unfold sitemapFromSitemapElement
    show (match (collectSitemapData (pre ++ c :: post)).any
        (fun p => !(p.1 == "loc" || p.1 == "lastmod")) with
      | true => Except.error (PyError.typeError "__init__() got an unexpected keyword argument")
      | false =>
        match dictGet (collectSitemapData (pre ++ c :: post)) "loc" with
        | Option.none => Except.error
            (PyError.typeError "__init__() missing 1 required positional argument: 'loc'")
        | Option.some locv =>
          Sitemap.make iso locv (dictGet (collectSitemapData (pre ++ c :: post)) "lastmod")) = _
    rw [hany]

/-- Witness for the amended C6 theorem: inserting `<foo>` into a `<url>`
element leaves the constructed record unchanged, while inserting it into
a `<sitemap>` element makes construction fail with a `TypeError`. -/
theorem unrecognized_child_url_ignored_sitemap_rejected_witness :
    allowedFields.contains (Element.mk "foo" (Option.some "bar") []).localName = false ∧
    (urlFromUrlElement (fun s => Option.some s) (Element.mk "url" Option.none
        ([Element.mk "loc" (Option.some "http://x") []] ++
          Element.mk "foo" (Option.some "bar") [] :: [])) =
      urlFromUrlElement (fun s => Option.some s) (Element.mk "url" Option.none
        ([Element.mk "loc" (Option.some "http://x") []] ++ [])) ∧
    ∃ m, sitemapFromSitemapElement (fun s => Option.some s) (Element.mk "url" Option.none
        ([Element.mk "loc" (Option.some "http://x") []] ++
          Element.mk "foo" (Option.some "bar") [] :: [])) =
      Except.error (PyError.typeError m)) :=
  ⟨by decide,
    unrecognized_child_url_ignored_sitemap_rejected (fun s => Option.some s) "url"
      Option.none [Element.mk "loc" (Option.some "http://x") []] []
      (Element.mk "foo" (Option.some "bar") []) (by decide)⟩

/-- C7 counterexample: a `<url>` element with no `<loc>` child fails with
a `TypeError` from keyword binding (the same for a `<sitemap>` element),
while a present-but-malformed `loc` value fails with a `ValueError` — the
two failures are of different kinds, not both the validation kind. -/
theorem missing_loc_error_kind_counterexample :
    urlFromUrlElement (fun s => Option.some s) (Element.mk "url" Option.none []) =
      Except.error
        (PyError.typeError "__init__() missing 1 required positional argument: 'loc'") ∧
    sitemapFromSitemapElement (fun s => Option.some s) (Element.mk "sitemap" Option.none []) =
      Except.error
        (PyError.typeError "__init__() missing 1 required positional argument: 'loc'") ∧
    Url.make (fun s => Option.some s) (Option.some "not-a-url") Option.none Option.none
        Option.none =
      Except.error (PyError.valueError "not-a-url is not a valid URL") :=
  ⟨rfl, rfl, rfl⟩

/-- C7 amended: a `<url>` element whose collected data has no `loc` key
(and likewise a `<sitemap>` element) fails record construction with a
`TypeError` — the missing-argument error of keyword binding — and in
particular never with the `ValueError` kind used for malformed field
values. -/
theorem missing_loc_raises_typeerror (iso : String → Option String) (e1 e2 : Element)
    (h1 : dictGet (collectUrlData e1.children) "loc" = Option.none)
    (h2 : (collectSitemapData e2.children).any
        (fun p => !(p.1 == "loc" || p.1 == "lastmod")) = false)
    (h3 : dictGet (collectSitemapData e2.children) "loc" = Option.none) :
    (urlFromUrlElement iso e1 =
      Except.error
        (PyError.typeError "__init__() missing 1 required positional argument: 'loc'")) ∧
    (sitemapFromSitemapElement iso e2 =
      Except.error
        (PyError.typeError "__init__() missing 1 required positional argument: 'loc'")) ∧
    ∀ m, urlFromUrlElement iso e1 ≠ Except.error (PyError.valueError m) := by
  have hu : urlFromUrlElement iso e1 =
      Except.error
        (PyError.typeError "__init__() missing 1 required positional argument: 'loc'") := by
    unfold urlFromUrlElement
    rw [h1]
  refine ⟨hu, ?_, ?_⟩
  · unfold sitemapFromSitemapElement
    rw [h2, h3]
  · intro m hbad
    rw [hu, Except.error.injEq] at hbad
    exact PyError.noConfusion hbad

/-- Witness for the amended C7 theorem at childless `<url>` and
`<sitemap>` elements. -/
theorem missing_loc_raises_typeerror_witness :
    dictGet (collectUrlData (Element.mk "url" Option.none []).children) "loc" =
        Option.none ∧
    (collectSitemapData (Element.mk "sitemap" Option.none []).children).any
        (fun p => !(p.1 == "loc" || p.1 == "lastmod")) = false ∧
    dictGet (collectSitemapData (Element.mk "sitemap" Option.none []).children) "loc" =
        Option.none ∧
    ((urlFromUrlElement (fun s => Option.some s) (Element.mk "url" Option.none []) =
      Except.error
        (PyError.typeError "__init__() missing 1 required positional argument: 'loc'")) ∧
    (sitemapFromSitemapElement (fun s => Option.some s)
        (Element.mk "sitemap" Option.none []) =
      Except.error
        (PyError.typeError "__init__() missing 1 required positional argument: 'loc'")) ∧
    ∀ m, urlFromUrlElement (fun s => Option.some s) (Element.mk "url" Option.none []) ≠
      Except.error (PyError.valueError m)) :=
  ⟨rfl, rfl, rfl,
    missing_loc_raises_typeerror (fun s => Option.some s) (Element.mk "url" Option.none [])
      (Element.mk "sitemap" Option.none []) rfl rfl rfl⟩
